import Mathlib

/-!
Shallow embedding of `src/main.rs` of resalloc-kubernetes: the manifest
composition engine (`create_simple_pod_yaml`, `generate_pod_resource`,
`generate_pvc_resource`, `get_pvc_name`, `parse_volume_mount`) and the
provisioning lifecycle (`generate_new_resource`, `cleanup`,
`delete_resource`).  Remote cluster calls are modelled by a `Gateway`
oracle giving the outcome of each call, and every lifecycle function
additionally returns the trace of gateway calls it issued, in order.
-/

namespace Resalloc

/-- The subset of `k8s_openapi::api::core::v1::VolumeMount` populated by
`parse_volume_mount` (the remaining fields are left at their defaults). -/
structure VolumeMount where
  mount_path : String
  name : String
  sub_path : Option String
deriving Repr, DecidableEq

/-- `CommandAdd` from `main.rs`: the already-parsed `add` subcommand. -/
structure CommandAdd where
  timeout : Nat
  image_tag : String
  cpu_resource : String
  memory_resource : String
  node_selector : List String
  privileged : Bool
  additional_labels : List String
  additional_volume_size : Option String
  additional_volume_class : Option String
  additional_volume_mount_path : Option String
  dry_run : Bool
  secret : Option VolumeMount
deriving Repr, DecidableEq

/-- Rust's `str::split(c)` on a separator character: the (possibly
empty) substrings between occurrences of `c`; the empty string yields one
empty part. -/
def splitOnChar (c : Char) : List Char → List (List Char)
  | [] => [[]]
  | x :: xs =>
      let r := splitOnChar c xs
      if x = c then [] :: r
      else
        match r with
        | y :: ys => (x :: y) :: ys
        | [] => [[x]]

/-- `splitOnChar` lifted to strings. -/
def splitStr (c : Char) (s : String) : List String :=
  (splitOnChar c s.data).map fun l => { data := l }

/-- `parse_volume_mount` from `main.rs`: split the option value on `:`;
exactly three parts yield a mount descriptor, otherwise an error whose
message is the empty string. -/
def parse_volume_mount (value : String) : Except String VolumeMount :=
  let parts := splitStr ':' value
  if h : parts.length = 3 then
    Except.ok
      { mount_path := parts.get ⟨0, by omega⟩
        name := parts.get ⟨1, by omega⟩
        sub_path := some (parts.get ⟨2, by omega⟩) }
  else
    Except.error ""

/-- Insertion into an association list with overwrite-on-collision: the
behaviour of `BTreeMap::insert` as observed through lookups. -/
def insertKV : List (String × String) → String → String → List (String × String)
  | [], k, v => [(k, v)]
  | (k0, v0) :: rest, k, v =>
      if k0 = k then (k, v) :: rest else (k0, v0) :: insertKV rest k v

/-- Lookup in an association list: the behaviour of `BTreeMap::get`. -/
def lookupKV : List (String × String) → String → Option String
  | [], _ => none
  | (k0, v0) :: rest, k => if k0 = k then some v0 else lookupKV rest k

/-- One `K=V` entry as `generate_pod_resource` treats it: split on every
`=`; keep exactly-two-part splits as a pair, drop everything else. -/
def keepPair (s : String) : Option (String × String) :=
  let pair := splitStr '=' s
  if h : pair.length = 2 then
    some (pair.get ⟨0, by omega⟩, pair.get ⟨1, by omega⟩)
  else
    none

/-- The label / node-selector loop of `generate_pod_resource`: fold the
entries over a map, inserting each entry that splits into exactly two
parts and silently dropping the rest. -/
def applyPairs (entries : List String) (m : List (String × String)) :
    List (String × String) :=
  entries.foldl
    (fun acc s =>
      match keepPair s with
      | some (k, v) => insertKV acc k v
      | none => acc)
    m

/-- The rightmost kept (`keepPair`) entry for a key, if any: the value
duplicate-key folding converges to. -/
def lastKept : List String → String → Option String
  | [], _ => none
  | s :: rest, k =>
      match lastKept rest k with
      | some v => some v
      | none =>
          match keepPair s with
          | some (k0, v) => if k0 = k then some v else none
          | none => none

/-- A volume entry of the rendered pod document: either a secret volume
(`RAW_SECRET_VOLUME`) or a persistent-volume-claim volume (`RAW_VOLUME`). -/
inductive PodVolume where
  | secretVol (volume_name : String) (secret_name : String)
  | claimVol (volume_name : String) (claim_name : String)
deriving Repr, DecidableEq

/-- A volumeMounts entry of the rendered pod document: either a secret
mount (`RAW_SECRET_MOUNT`) or a claim mount (`RAW_VOLUME_MOUNT_PVC`). -/
inductive PodMount where
  | secretMount (mount_path : String) (sub_path : String) (name : String)
  | claimMount (mount_path : String) (name : String)
deriving Repr, DecidableEq

/-- The structured pod document obtained by parsing the YAML rendered
from `RAW_POD` (the fields the templates populate). -/
structure Pod where
  name : String
  namespc : String
  labels : Option (List (String × String))
  image : String
  cpu : String
  memory : String
  privileged : Bool
  node_selector : Option (List (String × String))
  volumes : List PodVolume
  volume_mounts : List PodMount
deriving Repr, DecidableEq

/-- The structured persistent-volume-claim document rendered from
`RAW_PVC` (access mode is the fixed `ReadWriteOnce`). -/
structure PersistentVolumeClaim where
  name : String
  namespc : String
  size : String
  storage_class : String
deriving Repr, DecidableEq

/-- The base label map hard-coded in the `RAW_POD` template. -/
def baseLabels (has_volume : Bool) : List (String × String) :=
  [("app", "resalloc-kubernetes"),
   ("has_volume", if has_volume then "true" else "false")]

/-- `get_pvc_name` from `main.rs`. -/
def get_pvc_name (namespc : String) (additional_volume_class : String) : String :=
  "resalloc-" ++ namespc ++ "-" ++ additional_volume_class

/-- `generate_pvc_resource` from `main.rs`: the claim document rendered
from `RAW_PVC`.  The source unwraps the two options; both call sites
guard on their presence, so absence is modelled by the empty string. -/
def generate_pvc_resource (add_command : CommandAdd) (namespc : String)
    (pvc_name : String) : PersistentVolumeClaim :=
  { name := pvc_name
    namespc := namespc
    size := add_command.additional_volume_size.getD ""
    storage_class := add_command.additional_volume_class.getD "" }

/-- `create_simple_pod_yaml` from `main.rs` as the structured document it
renders: secret volume/mount first (when a secret was given), then the
claim volume/mount (when `has_volume`); base labels from the template;
node selector absent. -/
def create_simple_pod_yaml (add_command : CommandAdd) (namespc : String)
    (name : String) (pvc_name : String) (has_volume : Bool) : Pod :=
  let secretVols : List PodVolume :=
    match add_command.secret with
    | some s => [PodVolume.secretVol s.name s.name]
    | none => []
  let secretMounts : List PodMount :=
    match add_command.secret with
    | some s => [PodMount.secretMount s.mount_path (s.sub_path.getD "") s.name]
    | none => []
  let claimVols : List PodVolume :=
    if has_volume then [PodVolume.claimVol pvc_name pvc_name] else []
  let claimMounts : List PodMount :=
    if has_volume then
      [PodMount.claimMount (add_command.additional_volume_mount_path.getD "") pvc_name]
    else []
  { name := name
    namespc := namespc
    labels := some (baseLabels has_volume)
    image := add_command.image_tag
    cpu := add_command.cpu_resource
    memory := add_command.memory_resource
    privileged := add_command.privileged
    node_selector := none
    volumes := secretVols ++ claimVols
    volume_mounts := secretMounts ++ claimMounts }

/-- `generate_pod_resource` from `main.rs`: render the pod, merge the
additional labels (overwrite on collision, malformed entries dropped),
then install the node selectors, failing if the selector field is
already populated. -/
def generate_pod_resource (add_command : CommandAdd) (namespc : String)
    (name : String) (pvc_name : String) (create_volume : Bool) :
    Except String Pod :=
  let pod := create_simple_pod_yaml add_command namespc name pvc_name create_volume
  let pod :=
    if add_command.additional_labels.isEmpty then pod
    else
      match pod.labels with
      | some l => { pod with labels := some (applyPairs add_command.additional_labels l) }
      | none => pod
  if add_command.node_selector.isEmpty then Except.ok pod
  else
    match pod.node_selector with
    | some _ => Except.error "generated pod resource node selector should be empty"
    | none =>
        Except.ok { pod with node_selector := some (applyPairs add_command.node_selector []) }

/-- The all-three-fields-present test of `generate_new_resource` that
decides whether a persistent volume is requested. -/
def additional_volume_of (add_command : CommandAdd) : Bool :=
  add_command.additional_volume_size.isSome &&
    add_command.additional_volume_class.isSome &&
      add_command.additional_volume_mount_path.isSome

/-- One remote call issued to the cluster, with its arguments. -/
inductive GatewayCall where
  | createClaim (pvc : PersistentVolumeClaim)
  | createPod (pod : Pod)
  | waitPod (name : String)
  | getPod (name : String)
  | deletePod (name : String)
  | deleteClaim (name : String)
deriving Repr, DecidableEq

/-- The outcome of `tokio::time::timeout(_, await_condition(...))`. -/
inductive WaitOutcome where
  | ready
  | failed (e : String)
  | timedOut
deriving Repr, DecidableEq

/-- Oracle for the cluster: the outcome each remote call would have if
issued during this invocation.  `getPodResult` carries the fetched pod's
optional status, itself carrying the optional pod IP. -/
structure Gateway where
  createClaimResult : Except String Unit
  createPodResult : Except String Unit
  waitOutcome : WaitOutcome
  getPodResult : Except String (Option (Option String))
  deletePodResult : Except String Unit
  deleteClaimResult : Except String Unit

/-- The message built by `anyhow!("failed to creating new pod resource in
kubernetes, due to {:?}", e)`. -/
def errCreating (e : String) : String :=
  "failed to creating new pod resource in kubernetes, due to " ++ e

/-- The message built by `anyhow!("failed to getting new pod resource in
kubernetes, due to {:?}", e)`. -/
def errGetting (e : String) : String :=
  "failed to getting new pod resource in kubernetes, due to " ++ e

/-- The debug rendering of `tokio::time::error::Elapsed`. -/
def elapsedErr : String := "Elapsed(())"

/-- `cleanup` from `main.rs`: delete the pod by name and, when a volume
was requested, delete the claim — passing the SAME `name` (the pod's
name) to `delete_pvc_by_name`.  Each `?` propagates the first failure. -/
def cleanup (gw : Gateway) (name : String) (additional_volume : Bool) :
    Except String Unit × List GatewayCall :=
  match gw.deletePodResult with
  | Except.error e => (Except.error e, [GatewayCall.deletePod name])
  | Except.ok _ =>
      if additional_volume then
        match gw.deleteClaimResult with
        | Except.error e =>
            (Except.error e, [GatewayCall.deletePod name, GatewayCall.deleteClaim name])
        | Except.ok _ =>
            (Except.ok (), [GatewayCall.deletePod name, GatewayCall.deleteClaim name])
      else (Except.ok (), [GatewayCall.deletePod name])

/-- `generate_new_resource` from `main.rs`, with the fresh UUID passed in
and the cluster behind the `Gateway` oracle.  Returns the result together
with the ordered trace of gateway calls issued. -/
def generate_new_resource (add_command : CommandAdd) (namespc : String)
    (uuid : String) (gw : Gateway) : Except String Unit × List GatewayCall :=
  let name := "resalloc-" ++ uuid
  let additional_volume := additional_volume_of add_command
  let pvc_name :=
    if additional_volume then
      get_pvc_name namespc (add_command.additional_volume_class.getD "")
    else ""
  let pvc : Option PersistentVolumeClaim :=
    if additional_volume then some (generate_pvc_resource add_command namespc pvc_name)
    else none
  match generate_pod_resource add_command namespc name pvc_name additional_volume with
  | Except.error e => (Except.error e, [])
  | Except.ok pod =>
      if add_command.dry_run then (Except.ok (), [])
      else
        let claimStep : Except String Unit × List GatewayCall :=
          match pvc with
          | some p =>
              match gw.createClaimResult with
              | Except.error e => (Except.error e, [GatewayCall.createClaim p])
              | Except.ok _ => (Except.ok (), [GatewayCall.createClaim p])
          | none => (Except.ok (), [])
        match claimStep with
        | (Except.error e, t) => (Except.error e, t)
        | (Except.ok _, t1) =>
            match gw.createPodResult with
            | Except.error e => (Except.error e, t1 ++ [GatewayCall.createPod pod])
            | Except.ok _ =>
                let t2 := t1 ++ [GatewayCall.createPod pod, GatewayCall.waitPod name]
                match gw.waitOutcome with
                | WaitOutcome.timedOut =>
                    match cleanup gw name additional_volume with
                    | (Except.error ce, ct) => (Except.error ce, t2 ++ ct)
                    | (Except.ok _, ct) => (Except.error (errCreating elapsedErr), t2 ++ ct)
                | WaitOutcome.failed e =>
                    match cleanup gw name additional_volume with
                    | (Except.error ce, ct) => (Except.error ce, t2 ++ ct)
                    | (Except.ok _, ct) => (Except.error (errCreating e), t2 ++ ct)
                | WaitOutcome.ready =>
                    let t3 := t2 ++ [GatewayCall.getPod name]
                    match gw.getPodResult with
                    | Except.error e =>
                        match cleanup gw name additional_volume with
                        | (Except.error ce, ct) => (Except.error ce, t3 ++ ct)
                        | (Except.ok _, ct) => (Except.error (errGetting e), t3 ++ ct)
                    | Except.ok (some (some _)) => (Except.ok (), t3)
                    | Except.ok _ =>
                        match cleanup gw name additional_volume with
                        | (Except.error ce, ct) => (Except.error ce, t3 ++ ct)
                        | (Except.ok _, ct) =>
                            (Except.error "container ip address empty", t3 ++ ct)

/-- What `delete_resource` sees of each pod returned by the field-selector
listing: its name and its optional label map. -/
structure PodSnapshot where
  name : String
  labels : Option (List (String × String))
deriving Repr, DecidableEq

/-- The deletion loop of `delete_resource`: for each listed pod carrying
the ownership label `app == resalloc-kubernetes`, delete the pod, then —
when its labels carry `has_volume == "true"` — delete the claim, again by
the POD's name.  Other pods are skipped; the first failure aborts the
loop. -/
def delete_loop (dp : String → Except String Unit) (dc : String → Except String Unit) :
    List PodSnapshot → Except String Unit × List GatewayCall
  | [] => (Except.ok (), [])
  | p :: rest =>
      match p.labels with
      | none => delete_loop dp dc rest
      | some labels =>
          match lookupKV labels "app" with
          | none => delete_loop dp dc rest
          | some app =>
              if app = "resalloc-kubernetes" then
                match dp p.name with
                | Except.error e => (Except.error e, [GatewayCall.deletePod p.name])
                | Except.ok _ =>
                    let pvcStep : Except String Unit × List GatewayCall :=
                      match lookupKV labels "has_volume" with
                      | some hv =>
                          if hv = "true" then
                            match dc p.name with
                            | Except.error e => (Except.error e, [GatewayCall.deleteClaim p.name])
                            | Except.ok _ => (Except.ok (), [GatewayCall.deleteClaim p.name])
                          else (Except.ok (), [])
                      | none => (Except.ok (), [])
                    match pvcStep with
                    | (Except.error e, t) => (Except.error e, GatewayCall.deletePod p.name :: t)
                    | (Except.ok _, t) =>
                        let next := delete_loop dp dc rest
                        (next.1, GatewayCall.deletePod p.name :: (t ++ next.2))
              else delete_loop dp dc rest

/-- `delete_resource` from `main.rs`: `pods` is the listing returned for
the field selector `status.podIP=<name>`; `dp` / `dc` give the outcome of
deleting a pod / claim of a given name. -/
def delete_resource (addr : String) (pods : List PodSnapshot)
    (dp : String → Except String Unit) (dc : String → Except String Unit) :
    Except String Unit × List GatewayCall :=
  if pods.isEmpty then
    (Except.error ("failed to get get any pods within " ++ addr ++ " address"), [])
  else delete_loop dp dc pods

/-- The claim-kind entries of a pod's volumes list. -/
def claimVolumes (pod : Pod) : List PodVolume :=
  pod.volumes.filter fun v =>
    match v with
    | PodVolume.claimVol _ _ => true
    | _ => false

/-- The claim-kind entries of a pod's volumeMounts list. -/
def claimMounts (pod : Pod) : List PodMount :=
  pod.volume_mounts.filter fun v =>
    match v with
    | PodMount.claimMount _ _ => true
    | _ => false

/-- The pod `generate_pod_resource` in fact returns: the rendered pod with
the additional labels folded in and the node selectors installed. -/
def podOf (add_command : CommandAdd) (namespc : String) (name : String)
    (pvc_name : String) (create_volume : Bool) : Pod :=
  { create_simple_pod_yaml add_command namespc name pvc_name create_volume with
    labels := some (applyPairs add_command.additional_labels (baseLabels create_volume))
    node_selector :=
      if add_command.node_selector.isEmpty then none
      else some (applyPairs add_command.node_selector []) }

theorem lookupKV_insertKV (m : List (String × String)) (k v k2 : String) :
    lookupKV (insertKV m k v) k2 = if k = k2 then some v else lookupKV m k2 := by
  induction m with
  | nil => simp [insertKV, lookupKV]
  | cons kv rest ih =>
      obtain ⟨k0, v0⟩ := kv
      by_cases h0 : k0 = k
      · subst h0
        by_cases h2 : k0 = k2 <;> simp [insertKV, lookupKV, h2]
      · by_cases h2 : k0 = k2
        · have hk : ¬ k = k2 := by
            intro h; exact h0 (h2.trans h.symm)
          have hk2 : ¬ k2 = k := fun h => hk h.symm
          simp [insertKV, lookupKV, h0, h2, hk, hk2]
        · simp [insertKV, lookupKV, h0, h2, ih]

theorem applyPairs_cons (s : String) (rest : List String)
    (m : List (String × String)) :
    applyPairs (s :: rest) m =
      applyPairs rest
        (match keepPair s with
         | some (k, v) => insertKV m k v
         | none => m) := rfl

theorem lookupKV_applyPairs (entries : List String)
    (m : List (String × String)) (k : String) :
    lookupKV (applyPairs entries m) k =
      match lastKept entries k with
      | some v => some v
      | none => lookupKV m k := by
  induction entries generalizing m with
  | nil => simp [applyPairs, lastKept]
  | cons s rest ih =>
      rw [applyPairs_cons]
      cases hk : keepPair s with
      | none =>
          simp only [hk]
          rw [ih]
          cases hl : lastKept rest k <;> simp [lastKept, hl, hk]
      | some kv =>
          obtain ⟨k0, v⟩ := kv
          simp only [hk]
          rw [ih]
          cases hl : lastKept rest k with
          | some v2 => simp [lastKept, hl]
          | none =>
              rw [lookupKV_insertKV]
              by_cases h0 : k0 = k <;> simp [lastKept, hl, hk, h0]

theorem generate_pod_resource_eq (add_command : CommandAdd) (namespc : String)
    (name : String) (pvc_name : String) (create_volume : Bool) :
    generate_pod_resource add_command namespc name pvc_name create_volume =
      Except.ok (podOf add_command namespc name pvc_name create_volume) := by
  cases h : add_command.additional_labels with
  | nil =>
      cases h2 : add_command.node_selector <;>
        simp [generate_pod_resource, create_simple_pod_yaml, podOf, h, h2, applyPairs]
  | cons a as =>
      cases h2 : add_command.node_selector <;>
        simp [generate_pod_resource, create_simple_pod_yaml, podOf, h, h2]

/-- A minimal request: no volume, no secret, not a dry run. -/
def cmdNoVol : CommandAdd :=
  { timeout := 90, image_tag := "x:1", cpu_resource := "100m"
    memory_resource := "500Mi", node_selector := [], privileged := false
    additional_labels := [], additional_volume_size := none
    additional_volume_class := none, additional_volume_mount_path := none
    dry_run := false, secret := none }

/-- A request with all three volume fields populated (scenario B). -/
def cmdVol : CommandAdd :=
  { cmdNoVol with
    additional_volume_size := some "10Gi"
    additional_volume_class := some "test_pvc"
    additional_volume_mount_path := some "/etc/test_mount" }

/-- A request with only the volume size populated (partial volume group). -/
def cmdPartial : CommandAdd :=
  { cmdNoVol with additional_volume_size := some "10Gi" }

/-- The minimal request as a dry run. -/
def cmdDry : CommandAdd := { cmdNoVol with dry_run := true }

/-- A request with both a secret mount and a volume. -/
def cmdSecretVol : CommandAdd :=
  { cmdVol with
    secret := some
      { mount_path := "/home/copr/server.crt", name := "copr-secrets"
        sub_path := some "server-crt" } }

/-- A cluster on which every call succeeds and the pod gets an address. -/
def gwAllOk : Gateway :=
  { createClaimResult := Except.ok (), createPodResult := Except.ok ()
    waitOutcome := WaitOutcome.ready
    getPodResult := Except.ok (some (some "10.1.2.3"))
    deletePodResult := Except.ok (), deleteClaimResult := Except.ok () }

/-- A cluster on which the readiness wait fails and the rollback's pod
deletion also fails. -/
def gwRollbackFail : Gateway :=
  { gwAllOk with
    waitOutcome := WaitOutcome.failed "watch error"
    deletePodResult := Except.error "delete pod failed" }

/-- A cluster on which the readiness wait times out; deletions succeed. -/
def gwTimeout : Gateway := { gwAllOk with waitOutcome := WaitOutcome.timedOut }

/-- C10: `parse_volume_mount` succeeds exactly when the value splits on
`:` into three parts, taking mountPath, name and subPath from the parts
in that order; any other number of parts yields an error with an empty
message, and empty parts are accepted. -/
theorem c10_parse_volume_mount_spec :
    (∀ value a b c, splitStr ':' value = [a, b, c] →
        parse_volume_mount value =
          Except.ok { mount_path := a, name := b, sub_path := some c }) ∧
    (∀ value, (splitStr ':' value).length ≠ 3 →
        parse_volume_mount value = Except.error "") ∧
    parse_volume_mount "::" =
      Except.ok { mount_path := "", name := "", sub_path := some "" } ∧
    parse_volume_mount "a:b" = Except.error "" ∧
    parse_volume_mount "a:b:c:d" = Except.error "" := by
  refine ⟨?_, ?_, by rfl, by rfl, by rfl⟩
  · intro value a b c h
    simp [parse_volume_mount, h]
  · intro value h
    simp [parse_volume_mount, h]

/-- C10 witness: the characterisation applied at concrete inputs. -/
theorem c10_witness :
    parse_volume_mount "p:n:s" =
      Except.ok { mount_path := "p", name := "n", sub_path := some "s" } ∧
    parse_volume_mount "novalue" = Except.error "" :=
  ⟨c10_parse_volume_mount_spec.1 "p:n:s" "p" "n" "s" (by rfl),
   c10_parse_volume_mount_spec.2.1 "novalue" (by decide)⟩

/-- C5 counterexample: the entry `"="` splits into two empty parts and is
NOT dropped — it is kept as an empty-key/empty-value pair, contradicting
the claim that entries without two non-empty parts are dropped. -/
theorem c5_counterexample :
    applyPairs ["="] [] = [("", "")] ∧ applyPairs ["="] [] ≠ [] := by
  exact ⟨by rfl, by decide⟩

/-- C5 (amended): each `K=V` entry is split on every `=`; entries with
exactly two parts — empty parts allowed — are kept, all others (such as
`"novalue"` and `"a=b=c"`) are silently dropped, and on duplicate keys
the last kept occurrence wins. -/
theorem c5_pair_parsing_amended :
    (∀ entries m k, lookupKV (applyPairs entries m) k =
        match lastKept entries k with
        | some v => some v
        | none => lookupKV m k) ∧
    keepPair "novalue" = none ∧
    keepPair "a=b=c" = none ∧
    keepPair "=" = some ("", "") ∧
    applyPairs ["a=1", "a=2"] [] = [("a", "2")] :=
  ⟨lookupKV_applyPairs, by decide, by decide, by decide, by decide⟩

/-- C4: with the volume group only partially populated the built pod has
no claim volume and no claim mount; with all three fields populated it
has exactly one claim volume and one claim mount at the requested path,
and the claim manifest carries the derived name, the requested size and
the requested class. -/
theorem c4_volume_all_or_nothing (add_command : CommandAdd)
    (namespc name : String) :
    (additional_volume_of add_command = false →
      ∀ pvc_name pod,
        generate_pod_resource add_command namespc name pvc_name
            (additional_volume_of add_command) = Except.ok pod →
        claimVolumes pod = [] ∧ claimMounts pod = []) ∧
    (∀ size cls path,
        add_command.additional_volume_size = some size →
        add_command.additional_volume_class = some cls →
        add_command.additional_volume_mount_path = some path →
        ∀ pod,
          generate_pod_resource add_command namespc name
              (get_pvc_name namespc cls)
              (additional_volume_of add_command) = Except.ok pod →
          claimVolumes pod =
            [PodVolume.claimVol (get_pvc_name namespc cls) (get_pvc_name namespc cls)] ∧
          claimMounts pod =
            [PodMount.claimMount path (get_pvc_name namespc cls)] ∧
          (generate_pvc_resource add_command namespc (get_pvc_name namespc cls)).name =
            "resalloc-" ++ namespc ++ "-" ++ cls ∧
          (generate_pvc_resource add_command namespc (get_pvc_name namespc cls)).size = size ∧
          (generate_pvc_resource add_command namespc (get_pvc_name namespc cls)).storage_class
            = cls) := by
  constructor
  · intro hv pvc_name pod hpod
    rw [generate_pod_resource_eq] at hpod
    cases hpod
    cases hs : add_command.secret <;>
      simp [claimVolumes, claimMounts, podOf, create_simple_pod_yaml, hv, hs]
  · intro size cls path hsize hcls hpath pod hpod
    have hv : additional_volume_of add_command = true := by
      simp [additional_volume_of, hsize, hcls, hpath]
    rw [generate_pod_resource_eq] at hpod
    cases hpod
    cases hs : add_command.secret <;>
      simp [claimVolumes, claimMounts, podOf, create_simple_pod_yaml,
        generate_pvc_resource, get_pvc_name, hv, hs, hsize, hcls, hpath]

/-- C4 witness: scenario B — size `10Gi`, class `test_pvc`, mount
`/etc/test_mount`, namespace `test_ns`. -/
theorem c4_witness :
    claimVolumes (podOf cmdVol "test_ns" "p" (get_pvc_name "test_ns" "test_pvc") true) =
      [PodVolume.claimVol "resalloc-test_ns-test_pvc" "resalloc-test_ns-test_pvc"] ∧
    claimMounts (podOf cmdVol "test_ns" "p" (get_pvc_name "test_ns" "test_pvc") true) =
      [PodMount.claimMount "/etc/test_mount" "resalloc-test_ns-test_pvc"] ∧
    (generate_pvc_resource cmdVol "test_ns" (get_pvc_name "test_ns" "test_pvc")).size
      = "10Gi" := by
  have h := (c4_volume_all_or_nothing cmdVol "test_ns" "p").2 "10Gi" "test_pvc"
    "/etc/test_mount" (by rfl) (by rfl) (by rfl)
    (podOf cmdVol "test_ns" "p" (get_pvc_name "test_ns" "test_pvc") true)
    (by rw [generate_pod_resource_eq]; rfl)
  exact ⟨by rw [show get_pvc_name "test_ns" "test_pvc" = "resalloc-test_ns-test_pvc" from rfl]
           at h ⊢; exact h.1,
         by rw [show get_pvc_name "test_ns" "test_pvc" = "resalloc-test_ns-test_pvc" from rfl]
           at h ⊢; exact h.2.1,
         h.2.2.2.1⟩

/-- C7: when both a secret and a volume are requested, the rendered
volumes and volumeMounts lists each hold the secret's entry strictly
before the claim's entry. -/
theorem c7_secret_before_claim (add_command : CommandAdd)
    (namespc name pvc_name : String) (s : VolumeMount)
    (hs : add_command.secret = some s)
    (hv : additional_volume_of add_command = true) :
    ∀ pod,
      generate_pod_resource add_command namespc name pvc_name
          (additional_volume_of add_command) = Except.ok pod →
      pod.volumes =
        [PodVolume.secretVol s.name s.name, PodVolume.claimVol pvc_name pvc_name] ∧
      pod.volume_mounts =
        [PodMount.secretMount s.mount_path (s.sub_path.getD "") s.name,
         PodMount.claimMount (add_command.additional_volume_mount_path.getD "") pvc_name] := by
  intro pod hpod
  rw [generate_pod_resource_eq] at hpod
  cases hpod
  simp [podOf, create_simple_pod_yaml, hs, hv]

/-- C7 witness: the ordering at a concrete secret-plus-volume request. -/
theorem c7_witness :
    (podOf cmdSecretVol "test_ns" "p" "resalloc-test_ns-test_pvc" true).volumes =
      [PodVolume.secretVol "copr-secrets" "copr-secrets",
       PodVolume.claimVol "resalloc-test_ns-test_pvc" "resalloc-test_ns-test_pvc"] ∧
    (podOf cmdSecretVol "test_ns" "p" "resalloc-test_ns-test_pvc" true).volume_mounts =
      [PodMount.secretMount "/home/copr/server.crt" "server-crt" "copr-secrets",
       PodMount.claimMount "/etc/test_mount" "resalloc-test_ns-test_pvc"] :=
  c7_secret_before_claim cmdSecretVol "test_ns" "p" "resalloc-test_ns-test_pvc"
    { mount_path := "/home/copr/server.crt", name := "copr-secrets"
      sub_path := some "server-crt" }
    (by rfl) (by rfl)
    (podOf cmdSecretVol "test_ns" "p" "resalloc-test_ns-test_pvc" true)
    (by rw [generate_pod_resource_eq]; rfl)

/-- C8: the built pod's label map is the base labels
`app = resalloc-kubernetes`, `has_volume = "true"|"false"` with the
well-formed additional labels folded in, where a user-supplied entry with
the same key overwrites the base value and the last occurrence of a key
wins. -/
theorem c8_label_merge (add_command : CommandAdd) (namespc name pvc_name : String)
    (create_volume : Bool) :
    ∃ pod,
      generate_pod_resource add_command namespc name pvc_name create_volume =
        Except.ok pod ∧
      pod.labels =
        some (applyPairs add_command.additional_labels (baseLabels create_volume)) ∧
      lookupKV (baseLabels create_volume) "app" = some "resalloc-kubernetes" ∧
      lookupKV (baseLabels create_volume) "has_volume" =
        some (if create_volume then "true" else "false") ∧
      (∀ k,
        lookupKV (applyPairs add_command.additional_labels (baseLabels create_volume)) k =
          match lastKept add_command.additional_labels k with
          | some v => some v
          | none => lookupKV (baseLabels create_volume) k) := by
  refine ⟨podOf add_command namespc name pvc_name create_volume,
    generate_pod_resource_eq add_command namespc name pvc_name create_volume,
    rfl, by cases create_volume <;> rfl, by cases create_volume <;> rfl,
    fun k => lookupKV_applyPairs add_command.additional_labels (baseLabels create_volume) k⟩

theorem delete_loop_calls (dp dc : String → Except String Unit)
    (pods : List PodSnapshot) :
    ∀ c ∈ (delete_loop dp dc pods).2,
      ∃ p, p ∈ pods ∧ ∃ labels, p.labels = some labels ∧
        lookupKV labels "app" = some "resalloc-kubernetes" ∧
        (c = GatewayCall.deletePod p.name ∨
          (c = GatewayCall.deleteClaim p.name ∧
            lookupKV labels "has_volume" = some "true")) := by
  induction pods with
  | nil =>
      intro c hc
      simp [delete_loop] at hc
  | cons p rest ih =>
      intro c hc
      have step : ∀ q, q ∈ rest → q ∈ p :: rest :=
        fun q hq => List.mem_cons_of_mem _ hq
      have tail : c ∈ (delete_loop dp dc rest).2 →
          ∃ q, q ∈ p :: rest ∧ ∃ labels, q.labels = some labels ∧
            lookupKV labels "app" = some "resalloc-kubernetes" ∧
            (c = GatewayCall.deletePod q.name ∨
              (c = GatewayCall.deleteClaim q.name ∧
                lookupKV labels "has_volume" = some "true")) := by
        intro hmem
        obtain ⟨q, hq, h2⟩ := ih c hmem
        exact ⟨q, step q hq, h2⟩
      cases hl : p.labels with
      | none =>
          simp only [delete_loop, hl] at hc
          exact tail hc
      | some labels =>
          cases happ : lookupKV labels "app" with
          | none =>
              simp only [delete_loop, hl, happ] at hc
              exact tail hc
          | some app =>
              by_cases hmark : app = "resalloc-kubernetes"
              · have happ2 : lookupKV labels "app" = some "resalloc-kubernetes" := by
                  rw [happ, hmark]
                cases hdp : dp p.name with
                | error e =>
                    simp only [delete_loop, hl, happ, hdp, if_pos hmark] at hc
                    rw [List.mem_singleton] at hc
                    exact ⟨p, List.mem_cons_self p rest, labels, hl, happ2, Or.inl hc⟩
                | ok u =>
                    cases u
                    cases hhv : lookupKV labels "has_volume" with
                    | none =>
                        simp only [delete_loop, hl, happ, hdp, if_pos hmark, hhv,
                          List.nil_append, List.mem_cons] at hc
                        rcases hc with hc | hc
                        · exact ⟨p, List.mem_cons_self p rest, labels, hl, happ2, Or.inl hc⟩
                        · exact tail hc
                    | some hv =>
                        by_cases hhvt : hv = "true"
                        · have hhv2 : lookupKV labels "has_volume" = some "true" := by
                            rw [hhv, hhvt]
                          cases hdc : dc p.name with
                          | error e =>
                              simp only [delete_loop, hl, happ, hdp, if_pos hmark, hhv,
                                if_pos hhvt, hdc, List.mem_cons, List.not_mem_nil,
                                or_false] at hc
                              rcases hc with hc | hc
                              · exact ⟨p, List.mem_cons_self p rest, labels, hl, happ2,
                                  Or.inl hc⟩
                              · exact ⟨p, List.mem_cons_self p rest, labels, hl, happ2,
                                  Or.inr ⟨hc, hhv2⟩⟩
                          | ok u =>
                              cases u
                              simp only [delete_loop, hl, happ, hdp, if_pos hmark, hhv,
                                if_pos hhvt, hdc, List.cons_append, List.nil_append,
                                List.mem_cons] at hc
                              rcases hc with hc | hc | hc
                              · exact ⟨p, List.mem_cons_self p rest, labels, hl, happ2,
                                  Or.inl hc⟩
                              · exact ⟨p, List.mem_cons_self p rest, labels, hl, happ2,
                                  Or.inr ⟨hc, hhv2⟩⟩
                              · exact tail hc
                        · simp only [delete_loop, hl, happ, hdp, if_pos hmark, hhv,
                            if_neg hhvt, List.nil_append, List.mem_cons] at hc
                          rcases hc with hc | hc
                          · exact ⟨p, List.mem_cons_self p rest, labels, hl, happ2,
                              Or.inl hc⟩
                          · exact tail hc
              · simp only [delete_loop, hl, happ, if_neg hmark] at hc
                exact tail hc

theorem delete_loop_mono (dp dc : String → Except String Unit)
    (hdp : ∀ n, dp n = Except.ok ()) (hdc : ∀ n, dc n = Except.ok ())
    (q : PodSnapshot) (rest : List PodSnapshot) :
    ∀ c ∈ (delete_loop dp dc rest).2, c ∈ (delete_loop dp dc (q :: rest)).2 := by
  intro c hc
  cases hl : q.labels with
  | none => simpa [delete_loop, hl] using hc
  | some labels =>
      cases happ : lookupKV labels "app" with
      | none => simpa [delete_loop, hl, happ] using hc
      | some app =>
          by_cases hmark : app = "resalloc-kubernetes"
          · cases hhv : lookupKV labels "has_volume" with
            | none =>
                simp only [delete_loop, hl, happ, if_pos hmark, hdp q.name, hhv,
                  List.nil_append, List.mem_cons]
                exact Or.inr hc
            | some hv =>
                by_cases hhvt : hv = "true"
                · simp only [delete_loop, hl, happ, if_pos hmark, hdp q.name, hhv,
                    if_pos hhvt, hdc q.name, List.cons_append, List.nil_append,
                    List.mem_cons]
                  exact Or.inr (Or.inr hc)
                · simp only [delete_loop, hl, happ, if_pos hmark, hdp q.name, hhv,
                    if_neg hhvt, List.nil_append, List.mem_cons]
                  exact Or.inr hc
          · simpa [delete_loop, hl, happ, if_neg hmark] using hc

theorem delete_loop_complete (dp dc : String → Except String Unit)
    (hdp : ∀ n, dp n = Except.ok ()) (hdc : ∀ n, dc n = Except.ok ())
    (pods : List PodSnapshot) :
    ∀ p ∈ pods, ∀ labels, p.labels = some labels →
      lookupKV labels "app" = some "resalloc-kubernetes" →
      (GatewayCall.deletePod p.name ∈ (delete_loop dp dc pods).2 ∧
        (lookupKV labels "has_volume" = some "true" →
          GatewayCall.deleteClaim p.name ∈ (delete_loop dp dc pods).2)) := by
  induction pods with
  | nil => intro p hp; exact absurd hp (List.not_mem_nil p)
  | cons q rest ih =>
      intro p hp labels hl happ
      rcases List.mem_cons.mp hp with heq | hmem
      · subst heq
        have hmark : lookupKV labels "app" = some "resalloc-kubernetes" := happ
        constructor
        · cases hhv : lookupKV labels "has_volume" with
          | none => simp [delete_loop, hl, hmark, hdp, hhv]
          | some hv =>
              by_cases hhvt : hv = "true"
              · simp [delete_loop, hl, hmark, hdp, hdc, hhv, hhvt]
              · simp [delete_loop, hl, hmark, hdp, hhv, hhvt]
        · intro hhv
          simp [delete_loop, hl, hmark, hdp, hdc, hhv]
      · have h2 := ih p hmem labels hl happ
        exact ⟨delete_loop_mono dp dc hdp hdc q rest _ h2.1,
          fun hhv => delete_loop_mono dp dc hdp hdc q rest _ (h2.2 hhv)⟩

/-- C6: `Delete` fails when the address matches no pod; a delete-pod call
is issued only for matched pods whose labels carry
`app == resalloc-kubernetes`; a delete-claim call additionally requires
`has_volume == "true"`; and when the cluster accepts every delete, every
owned matched pod is in fact deleted (and its claim when so labelled). -/
theorem c6_delete_ownership (addr : String) (pods : List PodSnapshot)
    (dp dc : String → Except String Unit) :
    (delete_resource addr [] dp dc).1 =
        Except.error ("failed to get get any pods within " ++ addr ++ " address") ∧
    (∀ n, GatewayCall.deletePod n ∈ (delete_resource addr pods dp dc).2 →
        ∃ p, p ∈ pods ∧ p.name = n ∧ ∃ labels, p.labels = some labels ∧
          lookupKV labels "app" = some "resalloc-kubernetes") ∧
    (∀ n, GatewayCall.deleteClaim n ∈ (delete_resource addr pods dp dc).2 →
        ∃ p, p ∈ pods ∧ p.name = n ∧ ∃ labels, p.labels = some labels ∧
          lookupKV labels "app" = some "resalloc-kubernetes" ∧
          lookupKV labels "has_volume" = some "true") ∧
    ((∀ n, dp n = Except.ok ()) → (∀ n, dc n = Except.ok ()) →
      ∀ p ∈ pods, ∀ labels, p.labels = some labels →
        lookupKV labels "app" = some "resalloc-kubernetes" →
        GatewayCall.deletePod p.name ∈ (delete_resource addr pods dp dc).2 ∧
        (lookupKV labels "has_volume" = some "true" →
          GatewayCall.deleteClaim p.name ∈ (delete_resource addr pods dp dc).2)) := by
  refine ⟨by simp [delete_resource], ?_, ?_, ?_⟩
  · intro n hn
    cases pods with
    | nil => simp [delete_resource] at hn
    | cons q rest =>
        simp only [delete_resource, List.isEmpty_cons, if_neg] at hn
        obtain ⟨p, hp, labels, hl, happ, hor⟩ :=
          delete_loop_calls dp dc (q :: rest) _ hn
        rcases hor with h | ⟨h, _⟩
        · injection h with h2
          exact ⟨p, hp, h2.symm, labels, hl, happ⟩
        · cases h
  · intro n hn
    cases pods with
    | nil => simp [delete_resource] at hn
    | cons q rest =>
        simp only [delete_resource, List.isEmpty_cons, if_neg] at hn
        obtain ⟨p, hp, labels, hl, happ, hor⟩ :=
          delete_loop_calls dp dc (q :: rest) _ hn
        rcases hor with h | ⟨h, hhv⟩
        · cases h
        · injection h with h2
          exact ⟨p, hp, h2.symm, labels, hl, happ, hhv⟩
  · intro hdp hdc p hp labels hl happ
    cases pods with
    | nil => exact absurd hp (List.not_mem_nil p)
    | cons q rest =>
        have h2 := delete_loop_complete dp dc hdp hdc (q :: rest) p hp labels hl happ
        simpa [delete_resource] using h2

/-- Scenario D listing: two pods matching the address, only the first
carrying the ownership label. -/
def podsD : List PodSnapshot :=
  [{ name := "p1", labels := some [("app", "resalloc-kubernetes")] },
   { name := "p2", labels := some [("app", "other")] }]

/-- C6 witness: on scenario D with an all-accepting cluster the owned pod
is deleted and every issued delete targets an owned pod. -/
theorem c6_witness :
    (∃ p, p ∈ podsD ∧ p.name = "p1" ∧ ∃ labels, p.labels = some labels ∧
        lookupKV labels "app" = some "resalloc-kubernetes") ∧
    GatewayCall.deletePod "p1" ∈
      (delete_resource "10.0.0.1" podsD
        (fun _ => Except.ok ()) (fun _ => Except.ok ())).2 := by
  constructor
  · exact (c6_delete_ownership "10.0.0.1" podsD
      (fun _ => Except.ok ()) (fun _ => Except.ok ())).2.1 "p1" (by decide)
  · exact ((c6_delete_ownership "10.0.0.1" podsD
      (fun _ => Except.ok ()) (fun _ => Except.ok ())).2.2.2
      (fun _ => rfl) (fun _ => rfl)
      { name := "p1", labels := some [("app", "resalloc-kubernetes")] }
      (by decide) [("app", "resalloc-kubernetes")] rfl (by decide)).1

/-- C9: a dry-run Add renders the manifests, returns success and issues
no gateway call at all — the trace is empty whatever the cluster would
have answered. -/
theorem c9_dry_run_no_cluster_calls (add_command : CommandAdd)
    (namespc uuid : String) (gw : Gateway) (h : add_command.dry_run = true) :
    generate_new_resource add_command namespc uuid gw = (Except.ok (), []) := by
  simp [generate_new_resource, generate_pod_resource_eq, h]

/-- C9 witness: a concrete dry run against a cluster whose rollback calls
would fail — none of them is reached. -/
theorem c9_witness :
    generate_new_resource cmdDry "default" "u9" gwRollbackFail = (Except.ok (), []) :=
  c9_dry_run_no_cluster_calls cmdDry "default" "u9" gwRollbackFail (by rfl)

/-- C3 counterexample: a request populating only the volume size is NOT
rejected — the Add flow succeeds and issues cluster calls (create-pod,
wait, get), contradicting reject-with-InvalidRequest-before-any-call. -/
theorem c3_counterexample :
    (generate_new_resource cmdPartial "default" "u3" gwAllOk).1 = Except.ok () ∧
    (generate_new_resource cmdPartial "default" "u3" gwAllOk).2 =
      [GatewayCall.createPod (podOf cmdPartial "default" "resalloc-u3" "" false),
       GatewayCall.waitPod "resalloc-u3", GatewayCall.getPod "resalloc-u3"] :=
  ⟨rfl, rfl⟩

/-- C3 (amended): a request with some but not all of the three volume
fields is silently treated as having no volume: the builder performs no
rejection, no create-claim call is ever issued, and the built pod
manifest carries no claim volume and no claim mount. -/
theorem c3_partial_volume_amended (add_command : CommandAdd)
    (namespc uuid : String) (gw : Gateway)
    (h : additional_volume_of add_command = false) :
    (∀ p, GatewayCall.createClaim p ∉
        (generate_new_resource add_command namespc uuid gw).2) ∧
    (∀ pvc_name pod,
        generate_pod_resource add_command namespc ("resalloc-" ++ uuid) pvc_name
            (additional_volume_of add_command) = Except.ok pod →
        claimVolumes pod = [] ∧ claimMounts pod = []) := by
  constructor
  · obtain ⟨g1, g2, g3, g4, g5, g6⟩ := gw
    intro p hp
    cases hdry : add_command.dry_run <;>
      rcases g2 with e2 | u2 <;>
      rcases g3 with _ | e3 | _ <;>
      rcases g4 with e4 | (_ | (_ | ip4)) <;>
      rcases g5 with e5 | u5 <;>
      rcases g6 with e6 | u6 <;>
      simp_all [generate_new_resource, cleanup, generate_pod_resource_eq, h]
  · intro pvc_name pod hpod
    rw [generate_pod_resource_eq] at hpod
    cases hpod
    cases hs : add_command.secret <;>
      simp [claimVolumes, claimMounts, podOf, create_simple_pod_yaml, h, hs]

/-- C3 witness for the amended claim at a concrete partial request. -/
theorem c3_witness :
    GatewayCall.createClaim (generate_pvc_resource cmdPartial "default" "x") ∉
      (generate_new_resource cmdPartial "default" "u3" gwAllOk).2 :=
  (c3_partial_volume_amended cmdPartial "default" "u3" gwAllOk (by rfl)).1
    (generate_pvc_resource cmdPartial "default" "x")

/-- Whether the second character list occurs contiguously in the first. -/
def containsSub : List Char → List Char → Bool
  | [], needle => needle.isEmpty
  | h :: t, needle => List.isPrefixOf needle (h :: t) || containsSub t needle

/-- C1 counterexample: wait fails with cause `watch error`, the rollback's
pod deletion fails with `delete pod failed`; the invocation returns ONLY
the rollback error — the original cause is not contained in it (and the
same run with a succeeding rollback shows where the cause went). -/
theorem c1_counterexample :
    (generate_new_resource cmdNoVol "default" "u1" gwRollbackFail).1 =
      Except.error "delete pod failed" ∧
    containsSub "delete pod failed".data "watch error".data = false ∧
    (generate_new_resource cmdNoVol "default" "u1"
        { gwRollbackFail with deletePodResult := Except.ok () }).1 =
      Except.error (errCreating "watch error") :=
  ⟨rfl, by decide, rfl⟩

/-- C1 (amended): after a successful create and a failed wait, the
original cause is returned only when the compensating rollback succeeds;
when the rollback fails, the rollback error replaces the original error
entirely and the original cause is lost. -/
theorem c1_rollback_error_replaces_original (add_command : CommandAdd)
    (namespc uuid : String) (gw : Gateway) (e : String)
    (hdry : add_command.dry_run = false)
    (hcc : gw.createClaimResult = Except.ok ())
    (hcp : gw.createPodResult = Except.ok ())
    (hw : gw.waitOutcome = WaitOutcome.failed e) :
    ((cleanup gw ("resalloc-" ++ uuid) (additional_volume_of add_command)).1 =
        Except.ok () →
      (generate_new_resource add_command namespc uuid gw).1 =
        Except.error (errCreating e)) ∧
    (∀ ce,
      (cleanup gw ("resalloc-" ++ uuid) (additional_volume_of add_command)).1 =
        Except.error ce →
      (generate_new_resource add_command namespc uuid gw).1 =
        Except.error ce) := by
  constructor
  · intro hclean
    rcases h5 : gw.deletePodResult with e5 | u5
    · simp [cleanup, h5] at hclean
    · cases hv : additional_volume_of add_command
      · simp [generate_new_resource, cleanup, generate_pod_resource_eq, hdry,
          hcc, hcp, hw, h5, hv]
      · rcases h6 : gw.deleteClaimResult with e6 | u6
        · simp [cleanup, h5, h6, hv] at hclean
        · simp [generate_new_resource, cleanup, generate_pod_resource_eq, hdry,
            hcc, hcp, hw, h5, h6, hv]
  · intro ce hclean
    rcases h5 : gw.deletePodResult with e5 | u5
    · have he : e5 = ce := by simpa [cleanup, h5] using hclean
      subst he
      cases hv : additional_volume_of add_command <;>
        simp [generate_new_resource, cleanup, generate_pod_resource_eq, hdry,
          hcc, hcp, hw, h5, hv]
    · cases hv : additional_volume_of add_command
      · simp [cleanup, h5, hv] at hclean
      · rcases h6 : gw.deleteClaimResult with e6 | u6
        · have he : e6 = ce := by simpa [cleanup, h5, h6, hv] using hclean
          subst he
          simp [generate_new_resource, cleanup, generate_pod_resource_eq, hdry,
            hcc, hcp, hw, h5, h6, hv]
        · simp [cleanup, h5, h6, hv] at hclean

/-- C1 witness: the amended claim applied at the concrete failing run. -/
theorem c1_witness :
    (generate_new_resource cmdNoVol "default" "u1" gwRollbackFail).1 =
      Except.error "delete pod failed" :=
  (c1_rollback_error_replaces_original cmdNoVol "default" "u1" gwRollbackFail
    "watch error" rfl rfl rfl rfl).2 "delete pod failed" (by rfl)

/-- C2: on a timed-out wait for a volume-backed Add the code issues
exactly one delete-pod call with the pod's name and one delete-claim call
— but the delete-claim call carries the POD's name `resalloc-<uuid>`, not
the name of the claim it created (`resalloc-<namespace>-<class>`), so the
created claim is never the one deleted: the rollback targets a claim
that does not exist. -/
theorem c2_cleanup_deletes_wrong_claim :
    (generate_new_resource cmdVol "test_ns" "u2" gwTimeout).2 =
      [GatewayCall.createClaim
          (generate_pvc_resource cmdVol "test_ns" "resalloc-test_ns-test_pvc"),
       GatewayCall.createPod
          (podOf cmdVol "test_ns" "resalloc-u2" "resalloc-test_ns-test_pvc" true),
       GatewayCall.waitPod "resalloc-u2",
       GatewayCall.deletePod "resalloc-u2",
       GatewayCall.deleteClaim "resalloc-u2"] ∧
    (generate_pvc_resource cmdVol "test_ns" "resalloc-test_ns-test_pvc").name =
      "resalloc-test_ns-test_pvc" ∧
    GatewayCall.deleteClaim "resalloc-test_ns-test_pvc" ∉
      (generate_new_resource cmdVol "test_ns" "u2" gwTimeout).2 ∧
    (generate_new_resource cmdVol "test_ns" "u2" gwTimeout).1 =
      Except.error (errCreating elapsedErr) :=
  ⟨rfl, rfl, by decide, rfl⟩

end Resalloc
